/-
Verification of the whoop-backend service (src/main.py) against its
natural-language specification.

The script is a small FastAPI application with four GET endpoints:
  /               -> liveness JSON
  /login          -> redirect to the provider authorization URL
  /callback       -> OAuth2 code-for-token exchange, writes TOKEN_STORE
  /whoop/summary  -> fetches three collections and averages score fields

The embedding below mirrors the Python source line by line:
  * JSON values are modelled by the inductive `Json`; numeric values are
    rationals (Python floats idealised as exact arithmetic).
  * Python truthiness (`if error:`, `if not code:`, `if not token:`,
    `if r.get("score")`) is modelled by `Json.truthy` / `truthyStr`.
  * Raising an exception is modelled by `Except.error`; `dict.get`,
    subscripting, and slicing follow Python semantics (KeyError on a
    missing subscript key, AttributeError / TypeError on wrong shapes).
  * The upstream network is modelled by explicit data: the token
    endpoint's outcome is a `TokenOutcome` (either a transport-level
    exception raised by `requests.post`, or an HTTP response carrying
    its status, raw text, and optional parsed JSON body), and resource
    fetches are a function `FetchEnv.fetch` from the request path to
    the combined outcome of `requests.get` + `raise_for_status` +
    `.json()`.
  * The module-global TOKEN_STORE holds at most the single key
    "token"; it is modelled as `Option Json`.
-/
import Mathlib

set_option linter.unusedVariables false

/-! ## JSON values -/

/-- JSON values as produced/consumed by the service.  Numbers are
rationals (exact model of Python numerics). -/
inductive Json where
  | null : Json
  | bool (b : Bool) : Json
  | num (q : ℚ) : Json
  | str (s : String) : Json
  | arr (xs : List Json) : Json
  | obj (fields : List (String × Json)) : Json
deriving Repr

/-- First value stored under key `k` of a JSON object, if any
(Python dict lookup; our objects never repeat keys). -/
def Json.lookup (j : Json) (k : String) : Option Json :=
  match j with
  | .obj fs => (fs.find? (fun p => p.1 == k)).map (·.2)
  | _ => none

/-- Python truthiness of a JSON value (`bool(x)`): `None`, `False`,
`0`, `""`, `[]`, and `{ }` are falsy, everything else truthy. -/
def Json.truthy : Json → Bool
  | .null => false
  | .bool b => b
  | .num q => q != 0
  | .str s => s != ""
  | .arr xs => !xs.isEmpty
  | .obj fs => !fs.isEmpty

/-- Python `d.get(k)` (default `None`): `AttributeError` when the
receiver is not a dict, otherwise the stored value or `null`. -/
def Json.dictGet (j : Json) (k : String) : Except String Json :=
  match j with
  | .obj fs => .ok ((Json.lookup (.obj fs) k).getD .null)
  | _ => .error "AttributeError: object has no attribute get"

/-- Python `d[k]` with a string key: `KeyError` when the key is
missing, `TypeError` when the receiver is not a dict. -/
def Json.subscript (j : Json) (k : String) : Except String Json :=
  match j with
  | .obj fs =>
    match Json.lookup (.obj fs) k with
    | some v => .ok v
    | none => .error ("KeyError: " ++ k)
  | _ => .error "TypeError: object is not subscriptable by string"

/-- Truthiness of an optional query parameter (`if error:` /
`if not code:`): present and non-empty. -/
def truthyStr : Option String → Bool
  | none => false
  | some s => s != ""

/-- FastAPI serialisation of an `Optional[str]` field: `None` becomes
JSON `null`. -/
def optStr : Option String → Json
  | none => .null
  | some s => .str s

/-! ## Callback handler (src/main.py lines 57-99) -/

/-- Outcome of the `requests.post(TOKEN_URL, ...)` call in the
callback handler: either a transport-level exception (timeout,
connection error) raised by `requests.post`, or an HTTP response with
its status code, raw text, and the JSON parse of its body (`none`
when `resp.json()` would raise). -/
inductive TokenOutcome where
  | exn (msg : String) : TokenOutcome
  | resp (status : Nat) (text : String) (body : Option Json) : TokenOutcome

/-- Everything observable about one execution of the callback handler:
the value returned (or the exception raised), the final TOKEN_STORE,
and whether the outbound token-exchange POST was issued. -/
structure CallbackOut where
  result : Except String Json
  store : Option Json
  exchanged : Bool
deriving Repr

/-- Hint text of the missing-code branch (src/main.py line 78). -/
def missingCodeHint : String :=
  "WHOOP redirected here without ?code=. This usually means redirect_uri mismatch or invalid scope/client config."

/-- The `/callback` handler (src/main.py lines 57-99), as a function of
the four optional query parameters, the outcome the token endpoint
would produce if called, and the current TOKEN_STORE. -/
def callbackRun (code error error_description state : Option String)
    (outcome : TokenOutcome) (store : Option Json) : CallbackOut :=
  -- WHOOP sent an error instead of a code
  if truthyStr error then
    { result := .ok (.obj [("connected", .bool false), ("error", optStr error),
        ("error_description", optStr error_description), ("state", optStr state)])
      store := store, exchanged := false }
  -- Nothing came back at all
  else if !truthyStr code then
    { result := .ok (.obj [("connected", .bool false), ("error", .str "missing_code"),
        ("hint", .str missingCodeHint), ("state", optStr state)])
      store := store, exchanged := false }
  -- Exchange code for token
  else
    match outcome with
    | .exn msg => { result := .error msg, store := store, exchanged := true }
    | .resp status text body =>
      if 400 ≤ status then
        { result := .ok (.obj [("connected", .bool false),
            ("token_error", .num status), ("body", .str text)])
          store := store, exchanged := true }
      else
        match body with
        | none =>
          -- resp.json() raises when the body is not valid JSON
          { result := .error "requests.exceptions.JSONDecodeError", store := store,
            exchanged := true }
        | some tok =>
          { result := .ok (.obj [("connected", .bool true)]), store := some tok,
            exchanged := true }

/-! ## Authenticated resource fetch (src/main.py lines 103-112) -/

/-- Model of the upstream resource server: for each request path, the
combined outcome of `requests.get` + `r.raise_for_status()` +
`r.json()` — an exception message or the parsed JSON body.  The
response is a function of the path alone; the bearer token only
selects whether a request is issued at all. -/
structure FetchEnv where
  fetch : String → Except String Json

/-- Message of the RuntimeError raised by `whoop_get` when no token is
stored (src/main.py line 106). -/
def notAuthenticatedMsg : String :=
  "RuntimeError: Not authenticated. Go to /login first, then approve, then come back."

/-- `whoop_get` (src/main.py lines 103-112): reads
`TOKEN_STORE.get("token")`, raises when it is absent or falsy, builds
the bearer header from `token["access_token"]` (KeyError propagates),
then issues the GET.  Returns the result together with whether an
outbound HTTP request was issued. -/
def whoop_get (env : FetchEnv) (store : Option Json) (path : String) :
    Except String Json × Bool :=
  match store with
  | none => (.error notAuthenticatedMsg, false)
  | some token =>
    if !token.truthy then (.error notAuthenticatedMsg, false)
    else
      match token.subscript "access_token" with
      | .error e => (.error e, false)
      | .ok _ => (env.fetch path, true)

/-! ## Summary aggregator (src/main.py lines 115-141) -/

/-- `collection.get("records", [])[:7]` (src/main.py lines 121-123):
default to `[]` when the key is absent, then keep the first 7
entries.  A non-dict collection makes `.get` raise AttributeError; a
present non-list value cannot be used as a record list (the slice or
the subsequent comprehension raises). -/
def getRecords (j : Json) : Except String (List Json) :=
  match j with
  | .obj fs =>
    match Json.lookup (.obj fs) "records" with
    | none => .ok []
    | some (.arr xs) => .ok (xs.take 7)
    | some _ => .error "TypeError: records value is not a list"
  | _ => .error "AttributeError: object has no attribute get"

/-- The score-extraction comprehension
`[r["score"][field] for r in records if r.get("score")]`
(src/main.py lines 125-127): records whose `score` is absent or falsy
are skipped; for the others the nested subscripts are evaluated, and
the first exception aborts the whole comprehension. -/
def extractScores (field : String) : List Json → Except String (List Json)
  | [] => .ok []
  | r :: rs =>
    match r.dictGet "score" with
    | .error e => .error e
    | .ok sc =>
      if sc.truthy then
        match r.subscript "score" with
        | .error e => .error e
        | .ok s1 =>
          match s1.subscript field with
          | .error e => .error e
          | .ok v =>
            match extractScores field rs with
            | .error e => .error e
            | .ok rest => .ok (v :: rest)
      else extractScores field rs

/-- Score extraction for one whole collection: the slice of
`records` followed by the comprehension. -/
def scoresOfCollection (field : String) (j : Json) : Except String (List Json) :=
  match getRecords j with
  | .error e => .error e
  | .ok rs => extractScores field rs

/-- Python `round(q)`: nearest integer, ties to the even integer
(banker's rounding). -/
def pyRound (q : ℚ) : ℤ :=
  let f : ℤ := ⌊q⌋
  let r : ℚ := q - f
  if r < 1/2 then f
  else if 1/2 < r then f + 1
  else if f % 2 = 0 then f else f + 1

/-- Python `round(q, 1)`: round to one decimal place. -/
def roundTo1 (q : ℚ) : ℚ := (pyRound (10 * q) : ℚ) / 10

/-- The inner helper `avg` of the summary handler (src/main.py lines
129-130): `round(sum(xs) / len(xs), 1) if xs else None`, on a list of
numbers. -/
def avg (xs : List ℚ) : Option ℚ :=
  if xs = [] then none
  else some (roundTo1 (xs.sum / (xs.length : ℚ)))

/-- The arithmetic mean of a list of numbers, as the specification
words it: the sum divided by the length. -/
def arithmeticMean (xs : List ℚ) : ℚ := xs.sum / (xs.length : ℚ)

/-- Numeric value of a JSON score as Python `sum`/`/` would use it
(`True`/`False` count as 1/0); `none` when the operand would make
`sum` raise TypeError. -/
def Json.asNum : Json → Option ℚ
  | .num q => some q
  | .bool b => some (if b then 1 else 0)
  | _ => none

/-- `avg` applied to a list of extracted JSON scores: `None` (null)
for the empty list, TypeError when some score is not numeric. -/
def avgJson (xs : List Json) : Except String Json :=
  if xs.isEmpty then .ok .null
  else
    match xs.mapM Json.asNum with
    | none => .error "TypeError: unsupported operand type for +"
    | some qs => .ok (.num (roundTo1 (qs.sum / (qs.length : ℚ))))

/-- Aggregation step of the summary handler (src/main.py lines
121-141), applied to the three fetched collections. -/
def buildSummary (recovery workouts sleep : Json) : Except String Json :=
  match getRecords recovery with
  | .error e => .error e
  | .ok rec_records =>
  match getRecords workouts with
  | .error e => .error e
  | .ok wo_records =>
  match getRecords sleep with
  | .error e => .error e
  | .ok sl_records =>
  match extractScores "recovery_score" rec_records with
  | .error e => .error e
  | .ok rec_scores =>
  match extractScores "strain" wo_records with
  | .error e => .error e
  | .ok strain_scores =>
  match extractScores "sleep_performance_percentage" sl_records with
  | .error e => .error e
  | .ok sleep_perf =>
  match avgJson rec_scores with
  | .error e => .error e
  | .ok a1 =>
  match avgJson strain_scores with
  | .error e => .error e
  | .ok a2 =>
  match avgJson sleep_perf with
  | .error e => .error e
  | .ok a3 =>
  .ok (.obj [("averages", .obj [("recovery", a1), ("strain", a2), ("sleep", a3)]),
    ("recovery", .arr rec_scores), ("strain", .arr strain_scores),
    ("sleep", .arr sleep_perf)])

/-- The `/whoop/summary` handler (src/main.py lines 115-141): three
sequential `whoop_get` calls, then aggregation.  The second component
lists the upstream resource paths actually requested. -/
def summaryRun (env : FetchEnv) (store : Option Json) :
    Except String Json × List String :=
  let p1 := whoop_get env store "recovery"
  let l1 : List String := if p1.2 then ["recovery"] else []
  match p1.1 with
  | .error e => (.error e, l1)
  | .ok recovery =>
    let p2 := whoop_get env store "activity/workout"
    let l2 := l1 ++ (if p2.2 then ["activity/workout"] else [])
    match p2.1 with
    | .error e => (.error e, l2)
    | .ok workouts =>
      let p3 := whoop_get env store "activity/sleep"
      let l3 := l2 ++ (if p3.2 then ["activity/sleep"] else [])
      match p3.1 with
      | .error e => (.error e, l3)
      | .ok sleep => (buildSummary recovery workouts sleep, l3)

/-! ## Login redirect and the four-route HTTP surface
(src/main.py lines 19-51, 115) -/

/-- The three environment values read at startup (src/main.py lines
19-21). -/
structure Config where
  clientId : String
  clientSecret : String
  redirectUri : String

/-- Provider authorization endpoint (src/main.py line 23). -/
def AUTH_URL : String := "https://api.prod.whoop.com/oauth/oauth2/auth"

/-- Query parameters of the authorization redirect built by `/login`
(src/main.py lines 42-48); the `state` entry is the freshly generated
nonce. -/
def loginParams (cfg : Config) (nonce : String) : List (String × String) :=
  [("response_type", "code"), ("client_id", cfg.clientId),
   ("redirect_uri", cfg.redirectUri),
   ("scope", "read:recovery read:workout read:sleep"), ("state", nonce)]

/-- `urlencode` over the parameter list (percent-escaping of the
component strings is left abstract; no claim depends on it). -/
def urlencodeParams (ps : List (String × String)) : String :=
  String.intercalate "&" (ps.map (fun p => p.1 ++ "=" ++ p.2))

/-- The authorization URL the `/login` handler redirects to
(src/main.py line 50). -/
def authRedirectUrl (cfg : Config) (nonce : String) : String :=
  AUTH_URL ++ "?" ++ urlencodeParams (loginParams cfg nonce)

/-- A value returned by a route handler: a JSON body or a redirect. -/
inductive HttpOut where
  | json (j : Json) : HttpOut
  | redirect (url : String) : HttpOut
deriving Repr

/-- One incoming request to the service, carrying everything the
handler's execution depends on besides the token store: the `/login`
nonce drawn from `secrets`, the `/callback` query parameters and
token-endpoint outcome, the `/whoop/summary` upstream environment. -/
inductive Request where
  | root : Request
  | login (nonce : String) : Request
  | callback (code error error_description state : Option String)
      (outcome : TokenOutcome) : Request
  | summary (env : FetchEnv) : Request

/-- The four-route HTTP surface (src/main.py lines 29-31, 38-51,
57-99, 115-141): dispatches a request against the current TOKEN_STORE
and returns the response (or raised exception) with the new store. -/
def handle (cfg : Config) : Request → Option Json → Except String HttpOut × Option Json
  | .root, s => (.ok (.json (.obj [("status", .str "backend running")])), s)
  | .login nonce, s => (.ok (.redirect (authRedirectUrl cfg nonce)), s)
  | .callback code error error_description state outcome, s =>
    let o := callbackRun code error error_description state outcome s
    (o.result.map .json, o.store)
  | .summary env, s => ((summaryRun env s).1.map .json, s)

/-! ## Theorems -/

/-- Claim C1: for every empty score list the summary's `avg` returns
`none` rather than dividing by zero; whenever the division is reached
the list is non-empty, so its length — the divisor — is non-zero and
the division-by-zero branch is unreachable. -/
theorem avg_empty_is_none :
    (∀ xs : List ℚ, xs = [] → avg xs = none) ∧
    (∀ xs : List ℚ, xs ≠ [] → (avg xs).isSome = true) ∧
    (∀ xs : List ℚ, xs ≠ [] → ((xs.length : ℚ) ≠ 0)) := by
  refine ⟨fun xs h => by simp [avg, h], fun xs h => by simp [avg, h], fun xs h => ?_⟩
  have : xs.length ≠ 0 := by simpa [List.length_eq_zero] using h
  exact_mod_cast this

/-- Witness for C1 at concrete inputs. -/
theorem avg_empty_is_none_witness :
    avg ([] : List ℚ) = none ∧ (avg [(2 : ℚ)]).isSome = true :=
  ⟨avg_empty_is_none.1 [] rfl, avg_empty_is_none.2.1 [2] (by simp)⟩

/-- Claim C2: for every non-empty score list the computed average is
the arithmetic mean (sum over length) rounded to one decimal place,
and the result indeed has at most one decimal digit (ten times it is
an integer). -/
theorem avg_eq_rounded_mean :
    ∀ xs : List ℚ, xs ≠ [] →
      avg xs = some (roundTo1 (arithmeticMean xs)) ∧
      ∃ z : ℤ, roundTo1 (arithmeticMean xs) * 10 = (z : ℚ) := by
  intro xs h
  refine ⟨by simp [avg, h, arithmeticMean, roundTo1], ⟨pyRound (10 * arithmeticMean xs), ?_⟩⟩
  unfold roundTo1
  rw [div_mul_cancel₀]
  norm_num

/-- Witness for C2 at the list `[1, 2]`. -/
theorem avg_eq_rounded_mean_witness :
    ([(1 : ℚ), 2] ≠ []) ∧
      (avg [(1 : ℚ), 2] = some (roundTo1 (arithmeticMean [(1 : ℚ), 2])) ∧
        ∃ z : ℤ, roundTo1 (arithmeticMean [(1 : ℚ), 2]) * 10 = (z : ℚ)) :=
  ⟨by simp, avg_eq_rounded_mean [1, 2] (by simp)⟩

/-- Claim C5: when neither `code` nor `error` is supplied the callback
answers `connected: false` with the fixed `missing_code` diagnostic
and the redirect-URI/scope hint text, echoes the state, and neither
contacts the token endpoint nor touches the store. -/
theorem callback_missing_code_branch :
    ∀ (d st : Option String) (outcome : TokenOutcome) (s : Option Json),
      callbackRun none none d st outcome s =
        { result := .ok (.obj [("connected", .bool false),
            ("error", .str "missing_code"), ("hint", .str missingCodeHint),
            ("state", optStr st)]),
          store := s, exchanged := false } :=
  fun d st outcome s => rfl

/-- Claim C6: with an empty token store, `whoop_get` fails with the
"Not authenticated" RuntimeError telling the caller to redo `/login`,
without issuing any outbound request, and therefore the summary
endpoint fails the same way with zero upstream requests issued. -/
theorem summary_unauthenticated :
    ∀ (env : FetchEnv) (path : String),
      whoop_get env none path = (.error notAuthenticatedMsg, false) ∧
      summaryRun env none = (.error notAuthenticatedMsg, []) :=
  fun env path => ⟨rfl, rfl⟩

/-- A token-endpoint outcome that the callback handler can digest: an
actual HTTP response whose body, when the status is below 400, parses
as JSON.  Transport-level exceptions and unparsable success bodies
are not benign: the handler re-raises them. -/
def TokenOutcome.benign : TokenOutcome → Bool
  | .exn _ => false
  | .resp status _ body => decide (400 ≤ status) || body.isSome

/-- Counterexample to claim C3 as stated: with `code` present and the
token-endpoint POST raising a transport exception (e.g. a timeout),
the callback handler propagates the exception instead of returning a
JSON object with a `connected` field. -/
theorem callback_raises_on_transport_error :
    (callbackRun (some "authcode") none none none
        (.exn "requests.exceptions.ConnectTimeout") none).result =
      .error "requests.exceptions.ConnectTimeout" := rfl

/-- Claim C3 (amended): for every combination of the optional query
parameters and every benign token-endpoint outcome — an HTTP response
whose body parses as JSON when the status is below 400 — the callback
handler returns a well-formed JSON object with an explicit boolean
`connected` field. -/
theorem callback_connected_of_benign :
    ∀ (code error d st : Option String) (outcome : TokenOutcome) (s : Option Json),
      outcome.benign = true →
      ∃ (j : Json) (b : Bool),
        (callbackRun code error d st outcome s).result = .ok j ∧
        Json.lookup j "connected" = some (.bool b) := by
  intro code error d st outcome s hb
  cases he : truthyStr error with
  | true =>
    exact ⟨.obj [("connected", .bool false), ("error", optStr error),
      ("error_description", optStr d), ("state", optStr st)], false,
      by simp [callbackRun, he], rfl⟩
  | false =>
    cases hc : truthyStr code with
    | false =>
      exact ⟨.obj [("connected", .bool false), ("error", .str "missing_code"),
        ("hint", .str missingCodeHint), ("state", optStr st)], false,
        by simp [callbackRun, he, hc], rfl⟩
    | true =>
      cases outcome with
      | exn m => simp [TokenOutcome.benign] at hb
      | resp status text body =>
        by_cases hs : 400 ≤ status
        · exact ⟨.obj [("connected", .bool false), ("token_error", .num status),
            ("body", .str text)], false, by simp [callbackRun, he, hc, hs], rfl⟩
        · cases body with
          | none => simp [TokenOutcome.benign, hs] at hb
          | some tok =>
            exact ⟨.obj [("connected", .bool true)], true,
              by simp [callbackRun, he, hc, hs], rfl⟩

/-- Witness for the amended C3 at a concrete failing HTTP response. -/
theorem callback_connected_of_benign_witness :
    TokenOutcome.benign (.resp 500 "server error" none) = true ∧
      ∃ (j : Json) (b : Bool),
        (callbackRun (some "authcode") none none none
            (.resp 500 "server error" none) none).result = .ok j ∧
        Json.lookup j "connected" = some (.bool b) :=
  ⟨by decide, callback_connected_of_benign (some "authcode") none none none
    (.resp 500 "server error" none) none (by decide)⟩

/-- Counterexample to claim C4 as stated: the query parameter `error`
is present but empty (`?error=&code=authcode`), yet — because the
handler tests Python truthiness, not presence — the error branch is
skipped: the token exchange is performed and the response claims
`connected: true` rather than echoing the error. -/
theorem callback_empty_error_is_ignored :
    (callbackRun (some "authcode") (some "") none none
        (.resp 200 "tokenbody" (some (.obj [("access_token", .str "tok")])))
        none).exchanged = true ∧
      (callbackRun (some "authcode") (some "") none none
        (.resp 200 "tokenbody" (some (.obj [("access_token", .str "tok")])))
        none).result = .ok (.obj [("connected", .bool true)]) :=
  ⟨rfl, rfl⟩

/-- Claim C4 (amended): for every callback request in which `error`
is present with a non-empty value, the response is `connected: false`
echoing the error code, description and state, no token exchange is
attempted, and the store is untouched. -/
theorem callback_error_branch :
    ∀ (e : String), e ≠ "" →
      ∀ (code d st : Option String) (outcome : TokenOutcome) (s : Option Json),
        callbackRun code (some e) d st outcome s =
          { result := .ok (.obj [("connected", .bool false), ("error", .str e),
              ("error_description", optStr d), ("state", optStr st)]),
            store := s, exchanged := false } := by
  intro e he code d st outcome s
  have h : truthyStr (some e) = true := by simp [truthyStr, he]
  simp [callbackRun, h, optStr]

/-- Witness for the amended C4 at `error=access_denied`. -/
theorem callback_error_branch_witness :
    ("access_denied" ≠ "") ∧
      callbackRun (some "authcode") (some "access_denied")
          (some "User denied access") (some "xyz")
          (.resp 200 "irrelevant" none) none =
        { result := .ok (.obj [("connected", .bool false),
            ("error", .str "access_denied"),
            ("error_description", .str "User denied access"),
            ("state", .str "xyz")]),
          store := none, exchanged := false } :=
  ⟨by decide, callback_error_branch "access_denied" (by decide) (some "authcode")
    (some "User denied access") (some "xyz") (.resp 200 "irrelevant" none) none⟩

/-- The score comprehension never yields more scores than it was
given records. -/
theorem extractScores_length_le (field : String) :
    ∀ (rs : List Json) (l : List Json),
      extractScores field rs = .ok l → l.length ≤ rs.length := by
  intro rs
  induction rs with
  | nil =>
    intro l h
    simp [extractScores] at h
    simp [← h]
  | cons r rs ih =>
    intro l h
    simp only [extractScores] at h
    cases hg : r.dictGet "score" with
    | error e => rw [hg] at h; simp at h
    | ok sc =>
      rw [hg] at h
      simp only [] at h
      by_cases ht : sc.truthy = true
      · rw [if_pos ht] at h
        cases h1 : r.subscript "score" with
        | error e => rw [h1] at h; simp at h
        | ok s1 =>
          rw [h1] at h
          simp only [] at h
          cases h2 : s1.subscript field with
          | error e => rw [h2] at h; simp at h
          | ok v =>
            rw [h2] at h
            simp only [] at h
            cases h3 : extractScores field rs with
            | error e => rw [h3] at h; simp at h
            | ok rest =>
              rw [h3] at h
              simp at h
              rw [← h]
              simpa using Nat.succ_le_succ (ih rest h3)
      · rw [if_neg ht] at h
        exact Nat.le_succ_of_le (ih l h)

/-- Score extraction for a collection whose `records` value is a
list: the slice keeps only the first 7 records. -/
theorem scoresOfCollection_records (field : String) (xs : List Json) :
    scoresOfCollection field (.obj [("records", .arr xs)]) =
      extractScores field (xs.take 7) := rfl

/-- Claim C7: for every collection, the extracted score list (a) has
length at most 7 whenever extraction succeeds, (b) depends only on
the first 7 records in provider order, and (c) can be strictly
shorter than 7 even when the collection has 7 or more records,
because records without a score are silently dropped. -/
theorem summary_considers_first_seven :
    ∀ (field : String) (xs : List Json),
      (∀ l, scoresOfCollection field (.obj [("records", .arr xs)]) = .ok l →
        l.length ≤ 7) ∧
      (∀ ys, xs.take 7 = ys.take 7 →
        scoresOfCollection field (.obj [("records", .arr xs)]) =
          scoresOfCollection field (.obj [("records", .arr ys)])) ∧
      (∃ zs : List Json, 7 ≤ zs.length ∧
        scoresOfCollection field (.obj [("records", .arr zs)]) = .ok []) := by
  intro field xs
  refine ⟨fun l h => ?_, fun ys hys => ?_, ⟨List.replicate 7 (.obj []), by simp, rfl⟩⟩
  · rw [scoresOfCollection_records] at h
    have := extractScores_length_le field (xs.take 7) l h
    calc l.length ≤ (xs.take 7).length := this
      _ ≤ 7 := by simp [List.length_take]
  · rw [scoresOfCollection_records, scoresOfCollection_records, hys]

/-- Witness for C7: an 8-record and a 7-record collection agreeing on
their first 7 records extract the same scores, and a 7-record
collection whose records all lack a score yields the empty list. -/
theorem summary_considers_first_seven_witness :
    (List.replicate 8 (Json.obj [])).take 7 =
        (List.replicate 7 (Json.obj [])).take 7 ∧
      scoresOfCollection "recovery_score"
          (.obj [("records", .arr (List.replicate 8 (.obj [])))]) =
        scoresOfCollection "recovery_score"
          (.obj [("records", .arr (List.replicate 7 (.obj [])))]) ∧
      ([] : List Json).length ≤ 7 :=
  ⟨by simp,
   (summary_considers_first_seven "recovery_score"
      (List.replicate 8 (.obj []))).2.1 (List.replicate 7 (.obj [])) (by simp),
   (summary_considers_first_seven "recovery_score"
      (List.replicate 8 (.obj []))).1 [] rfl⟩

/-- A record whose `score` came back truthy from `.get` holds it
under the `score` key, so subscripting retrieves the same value. -/
theorem subscript_of_dictGet_truthy :
    ∀ (r sc : Json), r.dictGet "score" = .ok sc → sc.truthy = true →
      r.subscript "score" = .ok sc := by
  intro r sc h ht
  cases r with
  | obj fs =>
    simp only [Json.dictGet, Except.ok.injEq] at h
    cases hl : Json.lookup (.obj fs) "score" with
    | none =>
      rw [hl] at h
      simp at h
      rw [← h] at ht
      simp [Json.truthy] at ht
    | some v =>
      rw [hl] at h
      simp at h
      rw [← h]
      simp [Json.subscript, hl]
  | null => simp [Json.dictGet] at h
  | bool b => simp [Json.dictGet] at h
  | num q => simp [Json.dictGet] at h
  | str s => simp [Json.dictGet] at h
  | arr xs => simp [Json.dictGet] at h

/-- Claim C9 (implicit): a record whose `score` field is truthy but
lacks the expected numeric subfield makes the comprehension raise a
KeyError (shown both concretely and in general — any subscript
failure on a truthy score aborts extraction with that error), and at
summary level the request fails with the KeyError instead of
producing a JSON payload; records are skipped exactly when their
`score` is absent or falsy. -/
theorem truthy_score_without_field_raises :
    (extractScores "recovery_score"
        [.obj [("score", .obj [("strain", .num 5)])]] =
      .error "KeyError: recovery_score") ∧
    (∀ (field : String) (r : Json) (rs : List Json) (sc : Json),
      r.dictGet "score" = .ok sc → sc.truthy = false →
      extractScores field (r :: rs) = extractScores field rs) ∧
    (∀ (field : String) (r : Json) (rs : List Json) (sc : Json) (e : String),
      r.dictGet "score" = .ok sc → sc.truthy = true →
      sc.subscript field = .error e →
      extractScores field (r :: rs) = .error e) ∧
    (summaryRun
        ⟨fun _ => .ok (.obj [("records",
          .arr [.obj [("score", .obj [("strain", .num 5)])]])])⟩
        (some (.obj [("access_token", .str "tok")])) =
      (.error "KeyError: recovery_score",
        ["recovery", "activity/workout", "activity/sleep"])) := by
  refine ⟨rfl, fun field r rs sc hget ht => ?_, fun field r rs sc e hget ht hsub => ?_, rfl⟩
  · simp [extractScores, hget, ht]
  · have hs := subscript_of_dictGet_truthy r sc hget ht
    simp [extractScores, hget, ht, hs, hsub]

/-- Witness for C9: a record with `score: null` is skipped. -/
theorem truthy_score_without_field_raises_witness :
    (Json.dictGet (.obj [("score", .null)]) "score" = .ok .null) ∧
      (Json.truthy .null = false) ∧
      extractScores "strain" [.obj [("score", .null)]] =
        extractScores "strain" [] :=
  ⟨rfl, rfl, truthy_score_without_field_raises.2.1 "strain"
    (.obj [("score", .null)]) [] .null rfl rfl⟩

/-- Claim C8: the successful token exchange is the sole writer of the
token store.  For every request — `/`, `/login`, `/whoop/summary`,
and every failing callback branch — the store is left unchanged
unless the request is a callback whose exchange succeeded, and a
successful exchange always stores the freshly parsed token payload,
overwriting whatever was there. -/
theorem token_store_sole_writer :
    (∀ (cfg : Config) (req : Request) (s : Option Json),
      (handle cfg req s).2 = s ∨
      ∃ (code error d st : Option String) (status : Nat) (text : String)
          (tok : Json),
        req = .callback code error d st (.resp status text (some tok)) ∧
        truthyStr error = false ∧ truthyStr code = true ∧ status < 400 ∧
        (handle cfg req s).2 = some tok) ∧
    (∀ (cfg : Config) (code error d st : Option String) (status : Nat)
        (text : String) (tok : Json) (s : Option Json),
      truthyStr error = false → truthyStr code = true → status < 400 →
      (handle cfg (.callback code error d st (.resp status text (some tok))) s).2 =
        some tok) := by
  constructor
  · intro cfg req s
    cases req with
    | root => exact Or.inl rfl
    | login nonce => exact Or.inl rfl
    | summary env => exact Or.inl rfl
    | callback code error d st outcome =>
      cases he : truthyStr error with
      | true => exact Or.inl (by simp [handle, callbackRun, he])
      | false =>
        cases hc : truthyStr code with
        | false => exact Or.inl (by simp [handle, callbackRun, he, hc])
        | true =>
          cases outcome with
          | exn m => exact Or.inl (by simp [handle, callbackRun, he, hc])
          | resp status text body =>
            by_cases hs : 400 ≤ status
            · exact Or.inl (by simp [handle, callbackRun, he, hc, hs])
            · cases body with
              | none => exact Or.inl (by simp [handle, callbackRun, he, hc, hs])
              | some tok =>
                exact Or.inr ⟨code, error, d, st, status, text, tok, rfl, he, hc,
                  not_le.mp hs, by simp [handle, callbackRun, he, hc, hs]⟩
  · intro cfg code error d st status text tok s h1 h2 h3
    simp [handle, callbackRun, h1, h2, not_le.mpr h3]

/-- Witness for C8: a successful exchange overwrites an older stored
token. -/
theorem token_store_sole_writer_witness :
    truthyStr (none : Option String) = false ∧
      truthyStr (some "authcode") = true ∧ 200 < 400 ∧
      (handle ⟨"id", "secret", "https://redirect.example"⟩
          (.callback (some "authcode") none none none
            (.resp 200 "raw" (some (.obj [("access_token", .str "newtok")]))))
          (some (.obj [("access_token", .str "oldtok")]))).2 =
        some (.obj [("access_token", .str "newtok")]) :=
  ⟨rfl, rfl, by decide,
   token_store_sole_writer.2 ⟨"id", "secret", "https://redirect.example"⟩
     (some "authcode") none none none 200 "raw"
     (.obj [("access_token", .str "newtok")])
     (some (.obj [("access_token", .str "oldtok")])) rfl rfl (by decide)⟩

/-- With a truthy stored token that has an `access_token` entry,
`whoop_get` issues the request and returns the environment's
response for the path, independently of the token's value. -/
theorem whoop_get_with_token :
    ∀ (env : FetchEnv) (t : Json) (path : String) (a : Json),
      t.truthy = true → t.subscript "access_token" = .ok a →
      whoop_get env (some t) path = (env.fetch path, true) := by
  intro env t path a ht hsub
  simp [whoop_get, ht, hsub]

/-- Claim C10: a successful exchange answers exactly the object
`connected: true` — no token material — and the stored token value
never flows into the response of any of the four endpoints: the `/`,
`/login` and `/callback` responses are identical for any two store
contents, and the summary response is identical for any two usable
stored tokens (the token only gates whether the upstream requests are
issued; upstream responses are a function of the path). -/
theorem token_absent_from_responses :
    (∀ (code error d st : Option String) (status : Nat) (text : String)
        (tok : Json) (s : Option Json),
      truthyStr error = false → truthyStr code = true → status < 400 →
      (callbackRun code error d st (.resp status text (some tok)) s).result =
        .ok (.obj [("connected", .bool true)])) ∧
    (∀ (cfg : Config) (s u : Option Json),
      (handle cfg .root s).1 = (handle cfg .root u).1) ∧
    (∀ (cfg : Config) (nonce : String) (s u : Option Json),
      (handle cfg (.login nonce) s).1 = (handle cfg (.login nonce) u).1) ∧
    (∀ (code error d st : Option String) (outcome : TokenOutcome)
        (s u : Option Json),
      (callbackRun code error d st outcome s).result =
        (callbackRun code error d st outcome u).result) ∧
    (∀ (env : FetchEnv) (t u : Json),
      t.truthy = true → u.truthy = true →
      (∃ a, t.subscript "access_token" = .ok a) →
      (∃ b, u.subscript "access_token" = .ok b) →
      (summaryRun env (some t)).1 = (summaryRun env (some u)).1) := by
  refine ⟨?_, fun cfg s u => rfl, fun cfg nonce s u => rfl, ?_, ?_⟩
  · intro code error d st status text tok s h1 h2 h3
    simp [callbackRun, h1, h2, not_le.mpr h3]
  · intro code error d st outcome s u
    cases he : truthyStr error with
    | true => simp [callbackRun, he]
    | false =>
      cases hc : truthyStr code with
      | false => simp [callbackRun, he, hc]
      | true =>
        cases outcome with
        | exn m => simp [callbackRun, he, hc]
        | resp status text body =>
          by_cases hs : 400 ≤ status
          · simp [callbackRun, he, hc, hs]
          · cases body with
            | none => simp [callbackRun, he, hc, hs]
            | some tok => simp [callbackRun, he, hc, hs]
  · intro env t u ht hu ⟨a, ha⟩ ⟨b, hb⟩
    have et := whoop_get_with_token env t
    have eu := whoop_get_with_token env u
    simp only [summaryRun, et _ a ht ha, eu _ b hu hb]

/-- Witness for C10: the success response at a concrete exchange, and
equal summary responses under two different stored tokens. -/
theorem token_absent_from_responses_witness :
    (callbackRun (some "authcode") none none none
        (.resp 200 "x" (some (.obj [("access_token", .str "tokA")])))
        none).result = .ok (.obj [("connected", .bool true)]) ∧
      (summaryRun ⟨fun _ => .error "HTTPError: 500"⟩
          (some (.obj [("access_token", .str "tokA")]))).1 =
        (summaryRun ⟨fun _ => .error "HTTPError: 500"⟩
          (some (.obj [("access_token", .str "tokB")]))).1 :=
  ⟨token_absent_from_responses.1 (some "authcode") none none none 200 "x"
    (.obj [("access_token", .str "tokA")]) none rfl rfl (by decide),
   token_absent_from_responses.2.2.2.2 ⟨fun _ => .error "HTTPError: 500"⟩
     (.obj [("access_token", .str "tokA")]) (.obj [("access_token", .str "tokB")])
     rfl rfl ⟨.str "tokA", rfl⟩ ⟨.str "tokB", rfl⟩⟩
